import Mathlib

/-!
Verification development for the multi-agent workflow orchestration engine
(`mul_agent_tools`): a shallow embedding of the task-graph model, the agent
executor, the error classifier, the remediation policy and the routing state
machine, together with theorems settling the spec claims about them.

Sources embedded: `src/nodes/executor.py`, `src/nodes/remediation.py`,
`src/nodes/planner.py`, `src/core/graph.py`, `src/agents/base.py`.
The state container `src/core/state.py` is not present in the sources; its
data classes and helper methods are modelled from the spec (section 3) and
from the repository's own tests (`tests/test_basic.py`), as noted on each
definition.
-/

/-- Substring machinery: whether the first character list occurs at the front
of the second.  Mirrors the semantics of Python's `in` operator on strings,
which the error classifier uses for keyword matching. -/
def matches_at_front : List Char → List Char → Bool
  | [], _ => true
  | _ :: _, [] => false
  | a :: as, b :: bs => a == b && matches_at_front as bs

/-- Whether the first character list occurs contiguously anywhere inside the
second (Python `needle in haystack`). -/
def contains_chars : List Char → List Char → Bool
  | n, [] => matches_at_front n []
  | n, c :: rest => matches_at_front n (c :: rest) || contains_chars n rest

/-- Python `kw in msg` for strings. -/
def keyword_in (kw msg : String) : Bool :=
  contains_chars kw.data msg.data

/-- Python `any(keyword in error_message for keyword in [...])`. -/
def any_keyword (msg : String) (kws : List String) : Bool :=
  kws.any (fun k => keyword_in k msg)

/-- Lowercase an ASCII letter, leaving every other character unchanged.
Python's `str.lower()` restricted to the character ranges this program's
error messages actually use (ASCII plus Chinese agent names, which have no
case). -/
def lower_char (c : Char) : Char :=
  if 65 ≤ c.toNat ∧ c.toNat ≤ 90 then Char.ofNat (c.toNat + 32) else c

/-- Python `message.lower()` on the messages of this program. -/
def to_lower (s : String) : String := String.mk (s.data.map lower_char)

/-- A single quote character, used when rebuilding the executor's
`Agent ... not found` message. -/
def squote : String := String.singleton (Char.ofNat 39)

/-- Modelled from the spec: task lifecycle states of section 3 (`PENDING`,
`RUNNING`, `COMPLETED`, `FAILED`); `src/core/state.py` is missing from the
sources, which store the status as the lowercase strings used throughout the
nodes (`"pending"` etc., confirmed by `tests/test_basic.py`). -/
inductive TaskStatus
  | pending
  | running
  | completed
  | failed
deriving DecidableEq, Repr

/-- Modelled from the spec: `TaskDefinition` of the missing
`src/core/state.py` — one unit of dispatchable work (spec section 3, `Task`),
with defaults `status = pending`, `depends_on = None` confirmed by
`tests/test_basic.py`. -/
structure TaskDefinition where
  task_id : String
  agent : String
  tool : String
  inputs : List (String × String) := []
  depends_on : Option String := none
  status : TaskStatus := TaskStatus.pending
deriving DecidableEq, Repr

/-- Modelled from the spec: `ErrorRecord` of the missing `src/core/state.py`
(spec section 3), with default `retry_count = 0` confirmed by
`tests/test_basic.py`.  The timestamp is modelled as a plain counter since no
claim depends on real time. -/
structure ErrorRecord where
  task_id : String
  agent : String
  tool : String
  error_type : String
  error_message : String
  retry_count : Nat := 0
deriving DecidableEq, Repr

/-- Modelled from the spec: `GraphState` of the missing `src/core/state.py`
(spec section 3, `WorkflowState`), with the field names used by every node in
the sources and the defaults confirmed by `tests/test_basic.py`.  Results are
an association list keyed by `task_id`; result payloads are opaque strings
because the engine never inspects them (spec section 6). -/
structure GraphState where
  original_query : String
  session_id : String
  query_complexity : Option String := none
  task_plan : List TaskDefinition := []
  agent_results : List (String × String) := []
  error_log : List ErrorRecord := []
  final_answer : String := ""
deriving DecidableEq, Repr

/-- Modelled from the spec: `GraphState.get_pending_tasks`, returning the
tasks whose status is `pending` in plan order (`tests/test_basic.py`). -/
def get_pending_tasks (s : GraphState) : List TaskDefinition :=
  s.task_plan.filter (fun t => t.status = TaskStatus.pending)

/-- Modelled from the spec: `GraphState.get_task_by_id`, first task of the
plan with the given id (`tests/test_basic.py`). -/
def get_task_by_id (s : GraphState) (id : String) : Option TaskDefinition :=
  s.task_plan.find? (fun t => t.task_id == id)

/-- Set the status of the first task of the plan with the given id, mirroring
the Python idiom `task = state.get_task_by_id(...); task.status = ...` that
mutates the aliased list element in place. -/
def set_status_in_plan : List TaskDefinition → String → TaskStatus → List TaskDefinition
  | [], _, _ => []
  | t :: ts, id, st =>
      if t.task_id == id then { t with status := st } :: ts
      else t :: set_status_in_plan ts id st

/-- State-level wrapper around `set_status_in_plan`. -/
def set_task_status (s : GraphState) (id : String) (st : TaskStatus) : GraphState :=
  { s with task_plan := set_status_in_plan s.task_plan id st }

/-- Insert or overwrite a key in the results mapping (Python dict
assignment). -/
def upsert_result : List (String × String) → String → String → List (String × String)
  | [], k, v => [(k, v)]
  | (k0, v0) :: rest, k, v =>
      if k0 == k then (k0, v) :: rest else (k0, v0) :: upsert_result rest k v

/-- Modelled from the spec: `GraphState.mark_task_completed` of the missing
`src/core/state.py` — sets the task status to `completed` and stores the
result under the task id (`tests/test_basic.py`). -/
def mark_task_completed (s : GraphState) (id r : String) : GraphState :=
  let s1 := set_task_status s id TaskStatus.completed
  { s1 with agent_results := upsert_result s1.agent_results id r }

/-- Modelled from the spec: `GraphState.mark_task_failed` of the missing
`src/core/state.py` — sets the task status to `failed`. -/
def mark_task_failed (s : GraphState) (id : String) : GraphState :=
  set_task_status s id TaskStatus.failed

/-- Modelled from the spec: `GraphState.add_error` of the missing
`src/core/state.py` — appends an `ErrorRecord` to the chronological error log
(spec section 3: `errors` is append-only), with `retry_count` defaulting to 0
(`tests/test_basic.py`). -/
def add_error (s : GraphState) (task_id agent tool error_type error_message : String)
    (retry_count : Nat := 0) : GraphState :=
  { s with error_log := s.error_log ++
      [{ task_id := task_id, agent := agent, tool := tool, error_type := error_type,
         error_message := error_message, retry_count := retry_count }] }

/-- The two placeholder critical categories named by
`_analyze_error_patterns` in `src/nodes/remediation.py` (`UNRECOVERABLE_ERROR`,
`AUTH_FAILURE`), which the spec (section 9) identifies as the only evidenced
content of the critical-error predicate. -/
def critical_error_types : List String := ["UNRECOVERABLE_ERROR", "AUTH_FAILURE"]

/-- Modelled from the spec: `GraphState.has_critical_errors` of the missing
`src/core/state.py` — whether any logged error falls in an unrecoverable
category (spec sections 4.2 and 9). -/
def has_critical_errors (s : GraphState) : Bool :=
  s.error_log.any (fun e => critical_error_types.contains e.error_type)

/-- Agent names registered by `_initialize_registry` in
`src/agents/base.py`. -/
def agent_registry : List String :=
  ["选股agent", "新闻agent", "知识库agent", "诊股agent", "预测agent", "荐股agent"]

/-- The exception message raised by `agent_executor_node` when `get_agent`
returns `None` (`src/nodes/executor.py`, line 60). -/
def agent_not_found_message (name : String) : String :=
  "Agent " ++ squote ++ name ++ squote ++ " not found"

/-- The error classifier `_classify_error` of `src/nodes/executor.py`:
lowercase the raw message, then test the keyword groups in priority order,
first match wins. -/
def classify_error (raw : String) : String :=
  let m := to_lower raw
  if any_keyword m ["timeout", "connection", "network"] then "NETWORK_ERROR"
  else if any_keyword m ["rate limit", "quota", "too many requests"] then "RATE_LIMIT_ERROR"
  else if any_keyword m ["unauthorized", "authentication", "api key"] then "AUTH_ERROR"
  else if any_keyword m ["invalid", "not found", "does not exist"] then "INVALID_INPUT"
  else if any_keyword m ["agent", "tool"] then "AGENT_ERROR"
  else if any_keyword m ["hallucination", "format", "parsing"] then "LLM_ERROR"
  else "UNKNOWN_ERROR"

/-- Whether a task's dependency is satisfied by the results mapping
(`src/nodes/executor.py`, line 113: `not task.depends_on or task.depends_on in
completed_task_ids`). -/
def dep_satisfied (s : GraphState) (t : TaskDefinition) : Bool :=
  match t.depends_on with
  | none => true
  | some d => (s.agent_results.map Prod.fst).contains d

/-- The helper `_get_next_executable_task` of `src/nodes/executor.py`: first
pending task whose dependency is satisfied, in plan order. -/
def get_next_executable_task (s : GraphState) (pending : List TaskDefinition) :
    Option TaskDefinition :=
  pending.find? (fun t => dep_satisfied s t)

/-- The task `agent_executor_node` would dispatch on the given state: the
first ready task among the pending ones. -/
def dispatched_task (s : GraphState) : Option TaskDefinition :=
  get_next_executable_task s (get_pending_tasks s)

/-- Result of one node invocation: the resulting state plus whether the node
returned the empty update dictionary `{}`. -/
structure NodeResult where
  state : GraphState
  update_empty : Bool
deriving DecidableEq, Repr

/-- The executor node `agent_executor_node` of `src/nodes/executor.py`.  The
external provider call `agent.execute_task(state, task)` is the opaque
`dispatch` collaborator (spec section 1); a missing registry entry raises the
`Agent ... not found` exception before dispatch.  On success the task is
completed and its result stored; on any raised error the task is failed, the
message classified, and a fresh `ErrorRecord` appended. -/
def agent_executor_node (dispatch : GraphState → TaskDefinition → Except String String)
    (s : GraphState) : NodeResult :=
  let pending := get_pending_tasks s
  if pending.isEmpty then ⟨s, true⟩
  else
    match get_next_executable_task s pending with
    | none => ⟨s, true⟩
    | some t =>
        let s1 := set_task_status s t.task_id TaskStatus.running
        let outcome : Except String String :=
          if agent_registry.contains t.agent then dispatch s1 t
          else Except.error (agent_not_found_message t.agent)
        match outcome with
        | Except.ok r => ⟨mark_task_completed s1 t.task_id r, false⟩
        | Except.error e =>
            let s2 := mark_task_failed s1 t.task_id
            ⟨add_error s2 t.task_id t.agent t.tool (classify_error e) e 0, false⟩

/-- The decision function `_determine_remediation_action` of
`src/nodes/remediation.py`, evaluated against the most recent error record:
critical errors complete; `API_TIMEOUT`/`NETWORK_ERROR` with fewer than 3
retries retry; `INVALID_STOCK_CODE` with more than one task replans;
`AGENT_HALLUCINATION`/`LLM_ERROR` with fewer than 2 retries retry; otherwise
continue while tasks are pending, else complete. -/
def determine_remediation_action (s : GraphState) (e : ErrorRecord) : String :=
  if has_critical_errors s then "complete"
  else if (e.error_type == "API_TIMEOUT" || e.error_type == "NETWORK_ERROR")
      && e.retry_count < 3 then "retry"
  else if e.error_type == "INVALID_STOCK_CODE" && 1 < s.task_plan.length then "replan"
  else if (e.error_type == "AGENT_HALLUCINATION" || e.error_type == "LLM_ERROR")
      && e.retry_count < 2 then "retry"
  else if (get_pending_tasks s).isEmpty = false then "continue"
  else "complete"

/-- Replace the retry count of the last (most recent) record of the error
log, mirroring the in-place `error.retry_count += 1` of `_handle_retry` on
the aliased `error_log[-1]` record. -/
def update_last_retry_count : List ErrorRecord → Nat → List ErrorRecord
  | [], _ => []
  | [e], n => [{ e with retry_count := n }]
  | e :: e2 :: rest, n => e :: update_last_retry_count (e2 :: rest) n

/-- The handler `_handle_retry` of `src/nodes/remediation.py`: if the failed
task exists, reset it to `pending`, increment the retry count on the
referenced (most recent) error record in place, and append a
`RETRY_ATTEMPT` marker carrying the incremented count.  When the task is not
found nothing happens. -/
def handle_retry (s : GraphState) (e : ErrorRecord) : GraphState :=
  match get_task_by_id s e.task_id with
  | none => s
  | some _ =>
      let s1 := set_task_status s e.task_id TaskStatus.pending
      let s2 := { s1 with error_log := update_last_retry_count s1.error_log (e.retry_count + 1) }
      add_error s2 e.task_id e.agent e.tool "RETRY_ATTEMPT"
        ("Retrying task due to " ++ e.error_type) (e.retry_count + 1)

/-- The handler `_handle_replan` of `src/nodes/remediation.py`: mark the
offending task failed, clear the task plan entirely, and append a
`REPLAN_TRIGGERED` marker. -/
def handle_replan (s : GraphState) (e : ErrorRecord) : GraphState :=
  let s1 := set_task_status s e.task_id TaskStatus.failed
  let s2 := { s1 with task_plan := [] }
  add_error s2 "replanning" "remediation" "replan" "REPLAN_TRIGGERED"
    ("Replanning triggered by " ++ e.error_type ++ " in task " ++ e.task_id) 0

/-- The handler `_handle_continue` of `src/nodes/remediation.py`: mark the
offending task permanently failed and append a `TASK_SKIPPED` marker. -/
def handle_continue (s : GraphState) (e : ErrorRecord) : GraphState :=
  let s1 := set_task_status s e.task_id TaskStatus.failed
  add_error s1 e.task_id "remediation" "continue" "TASK_SKIPPED"
    ("Skipping task " ++ e.task_id ++ " due to unrecoverable " ++ e.error_type) 0

/-- The handler `_handle_complete` of `src/nodes/remediation.py`: force every
remaining pending task to `failed` and append a `FORCED_COMPLETION`
marker. -/
def handle_complete (s : GraphState) (_e : ErrorRecord) : GraphState :=
  let plan := s.task_plan.map
    (fun t => if t.status = TaskStatus.pending then { t with status := TaskStatus.failed } else t)
  let s1 := { s with task_plan := plan }
  add_error s1 "completion" "remediation" "complete" "FORCED_COMPLETION"
    "Completing processing due to critical errors or max retries reached" 0

/-- The node `remediation_node` of `src/nodes/remediation.py`: no-op on an
empty error log, otherwise determine the action for the most recent error and
run the corresponding handler. -/
def remediation_node (s : GraphState) : GraphState :=
  match s.error_log.getLast? with
  | none => s
  | some e =>
      let a := determine_remediation_action s e
      if a == "retry" then handle_retry s e
      else if a == "replan" then handle_replan s e
      else if a == "continue" then handle_continue s e
      else handle_complete s e

/-- The routing function `_route_after_execution` of `src/core/graph.py`:
`"error"` when the most recent error record has `retry_count == 0`, else
`"continue"` while pending tasks remain, else `"complete"`. -/
def route_after_execution (s : GraphState) : String :=
  let fresh := match s.error_log.getLast? with
    | some e => e.retry_count == 0
    | none => false
  if fresh then "error"
  else if (get_pending_tasks s).isEmpty = false then "continue"
  else "complete"

/-- The routing function `_route_after_remediation` of `src/core/graph.py`,
which re-derives the remediation decision from the state left behind by the
remediation node rather than reading a stored decision.  Note it has no
`LLM_ERROR` retry branch, unlike `_determine_remediation_action`. -/
def route_after_remediation (s : GraphState) : String :=
  match s.error_log.getLast? with
  | none => "complete"
  | some e =>
      if has_critical_errors s then "complete"
      else if (e.error_type == "API_TIMEOUT" || e.error_type == "NETWORK_ERROR")
          && e.retry_count < 3 then "retry"
      else if e.error_type == "INVALID_STOCK_CODE" && 1 < s.task_plan.length then "replan"
      else if (get_pending_tasks s).isEmpty = false then "continue"
      else "complete"

/-- Nodes of the LangGraph workflow built in `src/core/graph.py`. -/
inductive Node
  | router
  | planner
  | agent_executor
  | remediation
  | answer_generator
  | fallback
  | finished
deriving DecidableEq, Repr

/-- Edge map after the executor (`_build_graph`): `"continue"` loops the
executor, `"error"` enters remediation, `"complete"` enters synthesis. -/
def next_after_execution (s : GraphState) : Node :=
  let d := route_after_execution s
  if d == "continue" then Node.agent_executor
  else if d == "error" then Node.remediation
  else Node.answer_generator

/-- Edge map after remediation (`_build_graph`): `"retry"` and `"continue"`
re-enter the executor, `"replan"` re-enters the planner, `"complete"` enters
synthesis. -/
def next_after_remediation (s : GraphState) : Node :=
  let d := route_after_remediation s
  if d == "retry" then Node.agent_executor
  else if d == "replan" then Node.planner
  else if d == "continue" then Node.agent_executor
  else Node.answer_generator

/-- The fallback plan `_create_fallback_plan` of `src/nodes/planner.py`: a
single knowledge-lookup task for the original query. -/
def create_fallback_plan (query : String) : List TaskDefinition :=
  [{ task_id := "fallback_task_1", agent := "知识库agent", tool := "金融知识查询",
     inputs := [("query", query)] }]

/-- The helper `_validate_task_plan` of `src/nodes/planner.py`: task ids must
be unique, each dependency must reference an existing task id, and no task
may depend on itself.  (The planner node never calls this helper.) -/
def validate_task_plan (tasks : List TaskDefinition) : Bool :=
  let task_ids := tasks.map (fun t => t.task_id)
  if task_ids.length ≠ task_ids.eraseDups.length then false
  else if tasks.any (fun t => match t.depends_on with
      | some d => !(task_ids.contains d)
      | none => false) then false
  else if tasks.any (fun t => t.depends_on == some t.task_id) then false
  else true

/-- The node `planner_node` of `src/nodes/planner.py` with the LLM
collaborator abstracted as `plan_result` (the parsed task list, or the raised
exception's message).  A successful collaborator response is installed as the
task plan verbatim; on a raised error the single-task fallback plan is
substituted and a `PLANNING_ERROR` record appended. -/
def planner_node (plan_result : Except String (List TaskDefinition)) (s : GraphState) :
    GraphState :=
  match plan_result with
  | Except.ok tasks => { s with task_plan := tasks }
  | Except.error e =>
      let s1 := { s with task_plan := create_fallback_plan s.original_query }
      add_error s1 "planning" "planner" "llm_planning" "PLANNING_ERROR" e 0

/-- One step of the executor/remediation loop of the compiled graph: run the
node the configuration points at, then follow the conditional edge computed
from the resulting state.  The synthesis and fallback nodes are terminal
(`answer_generator → END`, `fallback → END` in `_build_graph`); the planner
and router are left as absorbing here because the loop claims start from a
populated plan. -/
def step (dispatch : GraphState → TaskDefinition → Except String String) :
    Node × GraphState → Node × GraphState
  | (Node.agent_executor, s) =>
      let s' := (agent_executor_node dispatch s).state
      (next_after_execution s', s')
  | (Node.remediation, s) =>
      let s' := remediation_node s
      (next_after_remediation s', s')
  | (Node.answer_generator, s) => (Node.finished, s)
  | (Node.fallback, s) => (Node.finished, s)
  | c => c

/-- Iterate `step` a given number of times. -/
def run_steps (dispatch : GraphState → TaskDefinition → Except String String)
    (n : Nat) (c : Node × GraphState) : Node × GraphState :=
  match n with
  | 0 => c
  | n + 1 => run_steps dispatch n (step dispatch c)

/-- A knowledge-lookup task with no dependency, used as the single task of
the retry-loop scenario. -/
def knowledge_task : TaskDefinition :=
  { task_id := "t1", agent := "知识库agent", tool := "金融知识查询" }

/-- Initial state of the retry-loop scenario: one registered task, nothing
executed yet. -/
def retry_loop_start : GraphState :=
  { original_query := "q", session_id := "sess", task_plan := [knowledge_task] }

/-- A provider that fails every dispatch with a timeout message, which the
classifier maps to `NETWORK_ERROR`. -/
def timeout_dispatch : GraphState → TaskDefinition → Except String String :=
  fun _ _ => Except.error "timeout"

/-- A news task that depends on `t1`. -/
def news_task_dep : TaskDefinition :=
  { task_id := "t2", agent := "新闻agent", tool := "新闻查询", depends_on := some "t1" }

/-- Initial state of the blocked-dependent scenario: `t2` depends on `t1`. -/
def blocked_start : GraphState :=
  { original_query := "q", session_id := "sess", task_plan := [knowledge_task, news_task_dep] }

/-- A provider that fails every dispatch with a message matching no
classifier keyword, which the classifier maps to `UNKNOWN_ERROR`. -/
def boom_dispatch : GraphState → TaskDefinition → Except String String :=
  fun _ _ => Except.error "boom"

/-- The knowledge task after its permanent failure. -/
def failed_knowledge_task : TaskDefinition :=
  { task_id := "t1", agent := "知识库agent", tool := "金融知识查询",
    status := TaskStatus.failed }

/-- The task plan the blocked-dependent scenario is stuck with: `t1` failed,
`t2` pending forever behind it. -/
def blocked_plan : List TaskDefinition := [failed_knowledge_task, news_task_dep]

/-- States of the executor/remediation livelock in the blocked-dependent
scenario: the plan is stuck, no results exist, no critical error is logged,
and the most recent error record is a fresh (`retry_count = 0`) record for
`t1` of type `UNKNOWN_ERROR` or `TASK_SKIPPED`. -/
def BlockedLoopState (s : GraphState) : Prop :=
  s.task_plan = blocked_plan ∧ s.agent_results = [] ∧ has_critical_errors s = false ∧
  ∃ e, s.error_log.getLast? = some e ∧ e.retry_count = 0 ∧ e.task_id = "t1" ∧
    (e.error_type = "UNKNOWN_ERROR" ∨ e.error_type = "TASK_SKIPPED")

/-- Configurations of the livelock: the control point alternates between the
executor and remediation nodes over a `BlockedLoopState`. -/
def BlockedLoopConfig (c : Node × GraphState) : Prop :=
  (c.1 = Node.agent_executor ∨ c.1 = Node.remediation) ∧ BlockedLoopState c.2

/-- A pending news task with no dependency. -/
def news_task : TaskDefinition :=
  { task_id := "t2", agent := "新闻agent", tool := "新闻查询" }

/-- An error record of the type the replan branch of the remediation policy
tests for (`INVALID_STOCK_CODE`). -/
def invalid_code_error : ErrorRecord :=
  { task_id := "t1", agent := "知识库agent", tool := "金融知识查询",
    error_type := "INVALID_STOCK_CODE", error_message := "invalid stock code 99999" }

/-- A state on which the remediation policy decides `replan`: the most recent
error is `INVALID_STOCK_CODE`, the plan has two tasks, no error is
critical. -/
def replan_state : GraphState :=
  { original_query := "q", session_id := "sess",
    task_plan := [failed_knowledge_task, news_task], error_log := [invalid_code_error] }

/-- A fresh `RATE_LIMIT_ERROR` record as the classifier produces it. -/
def rate_limit_error_record : ErrorRecord :=
  { task_id := "t1", agent := "知识库agent", tool := "金融知识查询",
    error_type := "RATE_LIMIT_ERROR", error_message := "rate limit exceeded" }

/-- A state whose most recent error is a fresh `RATE_LIMIT_ERROR` with
pending tasks remaining and no critical error. -/
def rate_limit_state : GraphState :=
  { original_query := "q", session_id := "sess",
    task_plan := [failed_knowledge_task, news_task], error_log := [rate_limit_error_record] }

/-- A fresh `INVALID_INPUT` record as the classifier produces it. -/
def invalid_input_error_record : ErrorRecord :=
  { task_id := "t1", agent := "知识库agent", tool := "金融知识查询",
    error_type := "INVALID_INPUT", error_message := "invalid stock code 99999" }

/-- A state whose most recent error is a fresh `INVALID_INPUT` with more than
one task in the plan and no critical error. -/
def invalid_input_state : GraphState :=
  { original_query := "q", session_id := "sess",
    task_plan := [failed_knowledge_task, news_task], error_log := [invalid_input_error_record] }

/-- A task occurring twice in a plan, so task ids are not unique. -/
def dup_task : TaskDefinition :=
  { task_id := "a", agent := "知识库agent", tool := "金融知识查询" }

/-- A plan with a duplicated task id — invalid per `_validate_task_plan`. -/
def dup_plan : List TaskDefinition := [dup_task, dup_task]

/-- A task depending on itself — invalid per `_validate_task_plan`. -/
def selfdep_task : TaskDefinition :=
  { task_id := "b", agent := "新闻agent", tool := "新闻查询", depends_on := some "b" }

/-- A fresh workflow state with an empty plan. -/
def empty_start : GraphState := { original_query := "q", session_id := "sess" }

/-- A state where the dependent task is ready: its dependency `t1` already
has a result. -/
def ready_state : GraphState :=
  { original_query := "q", session_id := "sess", task_plan := [news_task_dep],
    agent_results := [("t1", "r1-result")] }

/-- A network error on the dependent task, used to exercise the retry
handler. -/
def network_error_on_t2 : ErrorRecord :=
  { task_id := "t2", agent := "新闻agent", tool := "新闻查询",
    error_type := "NETWORK_ERROR", error_message := "timeout" }

/-- A state where the only pending task is blocked on a dependency with no
result: the executor has nothing to dispatch. -/
def blocked_only_state : GraphState :=
  { original_query := "q", session_id := "sess", task_plan := [news_task_dep] }

/-- A task whose agent name is missing from the registry and happens to
contain a network keyword. -/
def bogus_network_task : TaskDefinition :=
  { task_id := "t9", agent := "networkagent", tool := "misc" }

/-- A state whose only task names the unregistered `networkagent` agent. -/
def bogus_network_state : GraphState :=
  { original_query := "q", session_id := "sess", task_plan := [bogus_network_task] }

/-- A provider that always succeeds; used to show the registry check fires
before dispatch. -/
def ok_dispatch : GraphState → TaskDefinition → Except String String :=
  fun _ _ => Except.ok "ok"

/-- A task whose agent name is missing from the registry and contains no
keyword of a classifier group that precedes the invalid/not-found group. -/
def missing_agent_task : TaskDefinition :=
  { task_id := "t9", agent := "unknown-helper", tool := "misc" }

/-- A state whose only task names the unregistered `unknown-helper` agent. -/
def missing_agent_state : GraphState :=
  { original_query := "q", session_id := "sess", task_plan := [missing_agent_task] }

/-- Priority-ordered keyword table of the error taxonomy (spec section 4.2),
with the keyword groups as written in `_classify_error`. -/
def classifier_priority_table : List (List String × String) :=
  [ (["timeout", "connection", "network"], "NETWORK_ERROR"),
    (["rate limit", "quota", "too many requests"], "RATE_LIMIT_ERROR"),
    (["unauthorized", "authentication", "api key"], "AUTH_ERROR"),
    (["invalid", "not found", "does not exist"], "INVALID_INPUT"),
    (["agent", "tool"], "AGENT_ERROR"),
    (["hallucination", "format", "parsing"], "LLM_ERROR") ]

/-- First-match rule evaluation over an ordered keyword table, as the spec
words the taxonomy: the label of the first group with a matching keyword,
else the default. -/
def first_match (msg : String) : List (List String × String) → String → String
  | [], dflt => dflt
  | (kws, label) :: rest, dflt =>
      if any_keyword msg kws then label else first_match msg rest dflt

/-- C1: counter to the claim that after a `REPLAN` decision control returns
to the planner.  On a state where the policy decides `replan`, the handler
does clear the task plan, but `_route_after_remediation` — re-derived on the
post-handler state, whose most recent record is the `REPLAN_TRIGGERED` marker
and whose plan is empty — routes to the answer generator (synthesizer), not
to the planner, even though the graph wires a `replan → planner` edge and the
handler's own comment promises the planner will be invoked again. -/
theorem C1_replan_routes_to_synthesizer :
    determine_remediation_action replan_state invalid_code_error = "replan" ∧
    (remediation_node replan_state).task_plan = [] ∧
    next_after_remediation (remediation_node replan_state) = Node.answer_generator ∧
    Node.answer_generator ≠ Node.planner := by
  refine ⟨rfl, rfl, rfl, ?_⟩
  decide

/-- C3: counter to the claim that a most-recent `RATE_LIMIT_ERROR` with
`retry_count < 3` and no critical error yields `RETRY`.  The classifier does
produce `RATE_LIMIT_ERROR`, but the policy's retry branch tests only
`API_TIMEOUT` and `NETWORK_ERROR`, so the decision on such a state is
`continue`, not `retry`. -/
theorem C3_rate_limit_not_retried :
    classify_error "rate limit exceeded" = "RATE_LIMIT_ERROR" ∧
    rate_limit_error_record.retry_count < 3 ∧
    has_critical_errors rate_limit_state = false ∧
    determine_remediation_action rate_limit_state rate_limit_error_record = "continue" ∧
    "continue" ≠ "retry" := by
  refine ⟨?_, ?_, rfl, rfl, ?_⟩ <;> decide

/-- C4: counter to the claim that a most-recent `INVALID_INPUT` with more
than one task (and no critical error, no retry rule applying) yields
`REPLAN`.  The classifier produces `INVALID_INPUT`, but the policy's replan
branch tests the literal `INVALID_STOCK_CODE`, which the classifier never
emits, so the decision on such a state is `continue`, not `replan`. -/
theorem C4_invalid_input_not_replanned :
    classify_error "invalid stock code 99999" = "INVALID_INPUT" ∧
    1 < invalid_input_state.task_plan.length ∧
    has_critical_errors invalid_input_state = false ∧
    determine_remediation_action invalid_input_state invalid_input_error_record = "continue" ∧
    "continue" ≠ "replan" := by
  refine ⟨?_, ?_, rfl, rfl, ?_⟩ <;> decide

/-- C5: counter to the claim that the engine validates task-id uniqueness and
absence of self-dependency before accepting a plan.  `_validate_task_plan`
([partially] rejecting both invalid plans below) exists but is never called
by `planner_node`: a plan with a duplicated task id — or a self-dependent
task — returned by the collaborator is installed verbatim instead of being
replaced by the fallback plan.  The collaborator-raises half of the claim
does hold: a raised planner error yields the single fallback task and a
`PLANNING_ERROR` record. -/
theorem C5_plan_validation_not_performed :
    validate_task_plan dup_plan = false ∧
    validate_task_plan [selfdep_task] = false ∧
    (planner_node (Except.ok dup_plan) empty_start).task_plan = dup_plan ∧
    (planner_node (Except.ok [selfdep_task]) empty_start).task_plan = [selfdep_task] ∧
    dup_plan ≠ create_fallback_plan "q" ∧
    (planner_node (Except.error "LLM did not return a valid function call")
        empty_start).task_plan = create_fallback_plan "q" ∧
    ((planner_node (Except.error "LLM did not return a valid function call")
        empty_start).error_log.map ErrorRecord.error_type) = ["PLANNING_ERROR"] := by
  refine ⟨rfl, rfl, rfl, rfl, ?_, rfl, rfl⟩
  decide

/-- C2: counter to the retry bound.  A single registered task that fails with
a `timeout` on every attempt is retried without bound: each fresh failure
appends a new `ErrorRecord` whose `retry_count` starts at 0, so the policy's
`retry_count < 3` guard never trips, and after 8 graph steps the error log
already holds 4 `RETRY_ATTEMPT` markers for the task — more than the claimed
maximum of 3 — with the loop still in the executor node. -/
theorem C2_retry_bound_violated :
    3 < ((run_steps timeout_dispatch 8 (Node.agent_executor, retry_loop_start)).2.error_log.countP
      (fun e => e.error_type == "RETRY_ATTEMPT" && e.task_id == "t1")) ∧
    (run_steps timeout_dispatch 8 (Node.agent_executor, retry_loop_start)).1 =
      Node.agent_executor := by
  constructor <;> decide

/-- C8: the error classifier assigns the type by first match over the
priority-ordered keyword table — network, rate-limit, auth, invalid-input,
agent/tool, LLM — falling back to `UNKNOWN_ERROR`, on the lowercased raw
message. -/
theorem C8_classifier_first_match_priority :
    ∀ raw : String,
      classify_error raw = first_match (to_lower raw) classifier_priority_table "UNKNOWN_ERROR" :=
  fun _ => rfl

/-- C10 counterexample: the claim quantifies over every unregistered agent
name, but a name containing a network keyword defeats it: dispatching a task
whose agent is the unregistered `networkagent` produces the message
`Agent 'networkagent' not found`, and the classifier's network group
(tested before the invalid/not-found group) matches the name itself, so the
recorded error type is `NETWORK_ERROR`, not `INVALID_INPUT`. -/
theorem C10_network_named_agent_counterexample :
    agent_registry.contains "networkagent" = false ∧
    ((agent_executor_node ok_dispatch bogus_network_state).state.error_log.map
      (fun e => (e.error_type, e.error_message))) =
      [("NETWORK_ERROR", agent_not_found_message "networkagent")] ∧
    "NETWORK_ERROR" ≠ "INVALID_INPUT" := by
  refine ⟨?_, ?_, ?_⟩ <;> decide

/-- Helper: the most recent element of a log after appending one record. -/
theorem getLast_append_singleton {α : Type} (l : List α) (a : α) :
    (l ++ [a]).getLast? = some a := by
  rw [List.getLast?_append_cons]
  rfl

/-- C10 (amended): dispatching a task whose agent name is missing from the
registry raises the message `Agent <name> not found`; whenever that
lowercased message matches none of the keyword groups that precede the
invalid/not-found group (network, rate-limit, auth) but does match the
invalid/not-found group — true for ordinary agent names — the recorded error
type is `INVALID_INPUT`, because the classifier tests the invalid/not-found
group before the agent/tool group that the word `agent` in the message would
otherwise match. -/
theorem C10_missing_agent_classified_invalid_input :
    ∀ (dispatch : GraphState → TaskDefinition → Except String String)
      (s : GraphState) (t : TaskDefinition),
      dispatched_task s = some t →
      agent_registry.contains t.agent = false →
      any_keyword (to_lower (agent_not_found_message t.agent))
        ["timeout", "connection", "network"] = false →
      any_keyword (to_lower (agent_not_found_message t.agent))
        ["rate limit", "quota", "too many requests"] = false →
      any_keyword (to_lower (agent_not_found_message t.agent))
        ["unauthorized", "authentication", "api key"] = false →
      any_keyword (to_lower (agent_not_found_message t.agent))
        ["invalid", "not found", "does not exist"] = true →
      ((agent_executor_node dispatch s).state.error_log.getLast?).map
          (fun e => (e.error_type, e.error_message)) =
        some ("INVALID_INPUT", agent_not_found_message t.agent) := by
  intro d s t hdisp hreg hnet hrate hauth hinv
  unfold dispatched_task at hdisp
  have hcls : classify_error (agent_not_found_message t.agent) = "INVALID_INPUT" := by
    unfold classify_error
    simp only [hnet, hrate, hauth, hinv, Bool.false_eq_true, if_false, if_true]
  have hpne : (get_pending_tasks s).isEmpty = false := by
    cases hE : get_pending_tasks s with
    | nil => rw [hE] at hdisp; simp [get_next_executable_task] at hdisp
    | cons a l => rfl
  unfold agent_executor_node
  simp only [hpne, hdisp, hreg, Bool.false_eq_true, if_false, add_error, hcls,
    getLast_append_singleton]
  rfl

/-- Witness for C10 (amended): the unregistered agent name `unknown-helper`
satisfies every keyword hypothesis and its failure is recorded as
`INVALID_INPUT` with the not-found message. -/
theorem C10_missing_agent_classified_invalid_input_witness :
    ((agent_executor_node ok_dispatch missing_agent_state).state.error_log.getLast?).map
        (fun e => (e.error_type, e.error_message)) =
      some ("INVALID_INPUT", agent_not_found_message "unknown-helper") :=
  C10_missing_agent_classified_invalid_input ok_dispatch missing_agent_state
    missing_agent_task (by decide) (by decide) (by decide) (by decide) (by decide) (by decide)

/-- Helper: membership in a plan after a first-match status write is either
the newly written status or an untouched original task. -/
theorem mem_set_status_in_plan {t : TaskDefinition} :
    ∀ (l : List TaskDefinition) (id : String) (st : TaskStatus),
      t ∈ set_status_in_plan l id st → t.status = st ∨ t ∈ l := by
  intro l
  induction l with
  | nil => intro id st h; simp [set_status_in_plan] at h
  | cons hd tl ih =>
      intro id st h
      unfold set_status_in_plan at h
      by_cases hc : (hd.task_id == id) = true
      · rw [if_pos hc] at h
        rcases List.mem_cons.mp h with h1 | h2
        · left; rw [h1]
        · right; exact List.mem_cons_of_mem hd h2
      · rw [if_neg hc] at h
        rcases List.mem_cons.mp h with h1 | h2
        · right; rw [h1]; exact List.mem_cons_self hd tl
        · rcases ih id st h2 with h3 | h4
          · left; exact h3
          · right; exact List.mem_cons_of_mem hd h4

/-- C7: dependency gating.  The executor only ever dispatches (sets to
RUNNING) a task returned by `_get_next_executable_task`, and every such task
has its dependency satisfied — `depends_on` is `None` or already a key of
`agent_results`; moreover the retry handler writes no status other than
`pending`: every task of the post-retry plan is either reset to PENDING or an
untouched task of the original plan, so no operation introduces a RUNNING
task whose dependency lacks a result. -/
theorem C7_dependency_ordering :
    (∀ (s : GraphState) (t : TaskDefinition),
        dispatched_task s = some t → dep_satisfied s t = true) ∧
    (∀ (s : GraphState) (e : ErrorRecord) (t : TaskDefinition),
        t ∈ (handle_retry s e).task_plan →
          t.status = TaskStatus.pending ∨ t ∈ s.task_plan) := by
  constructor
  · intro s t h
    unfold dispatched_task get_next_executable_task at h
    exact List.find?_some h
  · intro s e t h
    unfold handle_retry at h
    cases hf : get_task_by_id s e.task_id with
    | none => rw [hf] at h; right; exact h
    | some tk =>
        rw [hf] at h
        simp only [add_error, set_task_status] at h
        exact mem_set_status_in_plan s.task_plan e.task_id TaskStatus.pending h

/-- Witness for C7: on a state whose dependent task is ready, the dispatched
task's dependency is satisfied, and the task survives a retry as pending. -/
theorem C7_dependency_ordering_witness :
    dep_satisfied ready_state news_task_dep = true ∧
    (news_task_dep.status = TaskStatus.pending ∨ news_task_dep ∈ ready_state.task_plan) :=
  ⟨C7_dependency_ordering.1 ready_state news_task_dep (by decide),
   C7_dependency_ordering.2 ready_state network_error_on_t2 news_task_dep (by decide)⟩

/-- C9: executor idempotence once exhausted or blocked.  If no task is
pending, or no pending task has its dependency satisfied, the executor node
returns the empty update with the state unchanged, and a repeated invocation
is again the same no-op. -/
theorem C9_executor_idempotent_when_blocked :
    ∀ (dispatch : GraphState → TaskDefinition → Except String String) (s : GraphState),
      (get_pending_tasks s = [] ∨
        get_next_executable_task s (get_pending_tasks s) = none) →
      agent_executor_node dispatch s = ⟨s, true⟩ ∧
      agent_executor_node dispatch (agent_executor_node dispatch s).state = ⟨s, true⟩ := by
  intro d s h
  have hnone : get_next_executable_task s (get_pending_tasks s) = none := by
    cases h with
    | inl h0 => rw [get_next_executable_task, h0]; rfl
    | inr h0 => exact h0
  have h1 : agent_executor_node d s = ⟨s, true⟩ := by
    unfold agent_executor_node
    cases hE : get_pending_tasks s with
    | nil => rfl
    | cons a l =>
        rw [hE] at hnone
        simp only [hnone, List.isEmpty_cons, Bool.false_eq_true, if_false]
  exact ⟨h1, by rw [h1]; exact h1⟩

/-- Witness for C9: on the state whose only pending task is blocked on a
missing dependency result, the executor is a no-op, twice. -/
theorem C9_executor_idempotent_when_blocked_witness :
    agent_executor_node ok_dispatch blocked_only_state = ⟨blocked_only_state, true⟩ ∧
    agent_executor_node ok_dispatch
        (agent_executor_node ok_dispatch blocked_only_state).state =
      ⟨blocked_only_state, true⟩ :=
  C9_executor_idempotent_when_blocked ok_dispatch blocked_only_state (Or.inr (by decide))

/-- Helper: unfolding of the remediation node once the most recent error is
known. -/
theorem remediation_node_eq_of_getLast (s : GraphState) (e : ErrorRecord)
    (h : s.error_log.getLast? = some e) :
    remediation_node s =
      (let a := determine_remediation_action s e
       if a == "retry" then handle_retry s e
       else if a == "replan" then handle_replan s e
       else if a == "continue" then handle_continue s e
       else handle_complete s e) := by
  unfold remediation_node
  rw [h]

/-- Helper: unfolding of the post-remediation route once the most recent
error is known. -/
theorem route_after_remediation_eq_of_getLast (s : GraphState) (e : ErrorRecord)
    (h : s.error_log.getLast? = some e) :
    route_after_remediation s =
      (if has_critical_errors s then "complete"
       else if (e.error_type == "API_TIMEOUT" || e.error_type == "NETWORK_ERROR")
           && e.retry_count < 3 then "retry"
       else if e.error_type == "INVALID_STOCK_CODE" && 1 < s.task_plan.length then "replan"
       else if (get_pending_tasks s).isEmpty = false then "continue"
       else "complete") := by
  unfold route_after_remediation
  rw [h]

/-- Helper: unfolding of the post-execution route once the most recent error
is known. -/
theorem route_after_execution_eq_of_getLast (s : GraphState) (e : ErrorRecord)
    (h : s.error_log.getLast? = some e) :
    route_after_execution s =
      (if (e.retry_count == 0) = true then "error"
       else if (get_pending_tasks s).isEmpty = false then "continue"
       else "complete") := by
  unfold route_after_execution
  rw [h]

/-- Helper: the error log written by the continue handler. -/
theorem handle_continue_error_log (s : GraphState) (e : ErrorRecord) :
    (handle_continue s e).error_log = s.error_log ++
      [{ task_id := e.task_id, agent := "remediation", tool := "continue",
         error_type := "TASK_SKIPPED",
         error_message := "Skipping task " ++ e.task_id ++ " due to unrecoverable "
           ++ e.error_type,
         retry_count := 0 }] := rfl

/-- Helper: one step of the graph from a livelocked configuration of the
blocked-dependent scenario stays livelocked. -/
theorem blocked_loop_inv_step (c : Node × GraphState) (h : BlockedLoopConfig c) :
    BlockedLoopConfig (step boom_dispatch c) := by
  obtain ⟨n, s⟩ := c
  obtain ⟨hn, hplan, hres, hcrit, e, hlast, hrc, htid, hty⟩ := h
  simp only at hn
  rcases hn with hn | hn
  · -- executor node: no ready task, no-op, route back to remediation
    subst hn
    have hp : get_pending_tasks s = [news_task_dep] := by
      unfold get_pending_tasks
      rw [hplan]
      decide
    have hd : dep_satisfied s news_task_dep = false := by
      unfold dep_satisfied
      rw [hres]
      decide
    have hnext : get_next_executable_task s [news_task_dep] = none := by
      unfold get_next_executable_task
      simp only [List.find?, hd]
    have hexec : agent_executor_node boom_dispatch s = ⟨s, true⟩ := by
      unfold agent_executor_node
      rw [hp]
      simp [hnext]
    have hroute : route_after_execution s = "error" := by
      rw [route_after_execution_eq_of_getLast s e hlast, hrc]
      rfl
    have hstep : step boom_dispatch (Node.agent_executor, s) = (Node.remediation, s) := by
      show (next_after_execution (agent_executor_node boom_dispatch s).state,
        (agent_executor_node boom_dispatch s).state) = (Node.remediation, s)
      rw [hexec]
      unfold next_after_execution
      rw [hroute]
      rfl
    rw [hstep]
    exact ⟨Or.inr rfl, hplan, hres, hcrit, e, hlast, hrc, htid, hty⟩
  · -- remediation node: decision is continue, marker appended, back to executor
    subst hn
    have hact : determine_remediation_action s e = "continue" := by
      unfold determine_remediation_action get_pending_tasks
      rw [hcrit, hplan, hrc]
      rcases hty with hty | hty <;> rw [hty] <;> decide
    have hrem : remediation_node s = handle_continue s e := by
      have h0 := remediation_node_eq_of_getLast s e hlast
      rw [hact] at h0
      exact h0
    have hplan2 : (handle_continue s e).task_plan = blocked_plan := by
      simp only [handle_continue, add_error, set_task_status]
      rw [htid, hplan]
      decide
    have hres2 : (handle_continue s e).agent_results = [] := by
      simp only [handle_continue, add_error, set_task_status]
      exact hres
    have hlast2 : (handle_continue s e).error_log.getLast? = some
        { task_id := e.task_id, agent := "remediation", tool := "continue",
          error_type := "TASK_SKIPPED",
          error_message := "Skipping task " ++ e.task_id ++ " due to unrecoverable "
            ++ e.error_type,
          retry_count := 0 } := by
      rw [handle_continue_error_log]
      exact getLast_append_singleton _ _
    have hcrit2 : has_critical_errors (handle_continue s e) = false := by
      unfold has_critical_errors at hcrit ⊢
      rw [handle_continue_error_log, List.any_append, hcrit]
      rfl
    have hpend2 : (get_pending_tasks (handle_continue s e)).isEmpty = false := by
      unfold get_pending_tasks
      rw [hplan2]
      decide
    have hroute2 : route_after_remediation (handle_continue s e) = "continue" := by
      rw [route_after_remediation_eq_of_getLast _ _ hlast2, hcrit2, hplan2, hpend2]
      rfl
    have hstep : step boom_dispatch (Node.remediation, s) =
        (Node.agent_executor, handle_continue s e) := by
      show (next_after_remediation (remediation_node s), remediation_node s) =
        (Node.agent_executor, handle_continue s e)
      rw [hrem]
      unfold next_after_remediation
      rw [hroute2]
      rfl
    rw [hstep]
    refine ⟨Or.inl rfl, hplan2, hres2, hcrit2, _, hlast2, rfl, ?_, Or.inr rfl⟩
    exact htid

/-- Helper: the livelock invariant is preserved by any number of steps. -/
theorem blocked_loop_inv_run :
    ∀ (n : Nat) (c : Node × GraphState), BlockedLoopConfig c →
      BlockedLoopConfig (run_steps boom_dispatch n c) := by
  intro n
  induction n with
  | zero => intro c h; exact h
  | succ m ih => intro c h; exact ih _ (blocked_loop_inv_step c h)

/-- Helper: the first step of the blocked-dependent scenario — `t1` fails
with an unclassifiable message — lands in a livelocked configuration. -/
theorem blocked_loop_start_step :
    BlockedLoopConfig (step boom_dispatch (Node.agent_executor, blocked_start)) := by
  constructor
  · right
    decide
  · refine ⟨by decide, by decide, by decide,
      { task_id := "t1", agent := "知识库agent", tool := "金融知识查询",
        error_type := "UNKNOWN_ERROR", error_message := "boom", retry_count := 0 },
      by decide, rfl, rfl, Or.inl rfl⟩

/-- C6: counter to guaranteed termination.  In the two-task plan where `t2`
depends on `t1` and `t1` fails permanently with an unclassifiable error, the
compiled graph livelocks: every remediation pass appends a fresh
`TASK_SKIPPED` marker with `retry_count = 0`, which the post-execution route
reads as a new error, so control alternates between the executor and
remediation nodes forever and the synthesis node is never reached. -/
theorem C6_blocked_dependent_loops_forever :
    ∀ n : Nat,
      ((run_steps boom_dispatch n (Node.agent_executor, blocked_start)).1 = Node.agent_executor ∨
       (run_steps boom_dispatch n (Node.agent_executor, blocked_start)).1 = Node.remediation) ∧
      (run_steps boom_dispatch n (Node.agent_executor, blocked_start)).1 ≠
        Node.answer_generator := by
  intro n
  cases n with
  | zero => exact ⟨Or.inl rfl, by decide⟩
  | succ m =>
      have h2 := blocked_loop_inv_run m _ blocked_loop_start_step
      have he : run_steps boom_dispatch (m + 1) (Node.agent_executor, blocked_start) =
          run_steps boom_dispatch m (step boom_dispatch (Node.agent_executor, blocked_start)) :=
        rfl
      rw [he]
      obtain ⟨hn, _⟩ := h2
      refine ⟨hn, ?_⟩
      rcases hn with h | h <;> rw [h] <;> decide
